import Mathlib

/-!
# Nutrition calculator (`app.js`): daily log, expenditure estimator, converter

A shallow embedding of the pure parts of `app.js`.

Modelling conventions.
* A JavaScript number is an exact rational (`ℚ`); a value that may be `NaN`
  is an `Option ℚ` with `none` for `NaN`.  Binary floating-point rounding
  and the infinities are outside the model.
* `Math.round` rounds half up: `Math.round x = ⌊x + 1/2⌋`.
* The persistent store is reliable: what `saveLS` writes is what `loadLS`
  reads.  The daily log is the value `loadLog` returns, a finite map from
  date strings to day records, written as a function into `Option`.
* `crypto.randomUUID()` and `Date.now()` are inputs of `addEntry`.
* The builtin `Number(raw)` followed by `Number.isFinite` is an input of
  `readNum`, a function `String → Option ℚ`.
* An input field of the converter is the number `parseFloat` reads from its
  text, so that a number written into a field is read back unchanged.
-/

namespace NutritionCalc

/-! ## Constants and numeric helpers -/

/-- Source `const KJ_PER_KCAL = 4.184`. -/
def KJ_PER_KCAL : ℚ := 4184 / 1000

/-- Source `const ACTIVITY_FACTORS = { sedentary: 1.2, light: 1.375, moderate: 1.55,
very: 1.725, extra: 1.9 }`, as a lookup of the object's own keys. -/
def ACTIVITY_FACTORS (key : String) : Option ℚ :=
  if key = "sedentary" then some (12 / 10)
  else if key = "light" then some (1375 / 1000)
  else if key = "moderate" then some (155 / 100)
  else if key = "very" then some (1725 / 1000)
  else if key = "extra" then some (19 / 10)
  else none

/-- Source `toNumber(str)`: `parseFloat(str)`, with `NaN` replaced by 0.  The
argument is the result of `parseFloat`. -/
def toNumber (parsed : Option ℚ) : ℚ :=
  match parsed with
  | some num => num
  | none => 0

/-- Source `r0 = (n) => Math.round(n)`. -/
def r0 (n : ℚ) : ℤ := ⌊n + 1 / 2⌋

/-- Source `r1 = (n) => Math.round(n * 10) / 10`. -/
def r1 (n : ℚ) : ℚ := (r0 (n * 10) : ℚ) / 10

/-- Source `round1 = (n) => Math.round(n * 10) / 10`. -/
def round1 (n : ℚ) : ℚ := (r0 (n * 10) : ℚ) / 10

/-- Source `clamp = (n, min, max) => Math.min(max, Math.max(min, n))`. -/
def clamp (n lo hi : ℚ) : ℚ := min hi (max lo n)

/-- Source `toKj = (kcal) => r1(kcal * KJ_PER_KCAL)`. -/
def toKj (kcal : ℚ) : ℚ := r1 (kcal * KJ_PER_KCAL)

/-! ## Daily log -/

/-- An entry `{ id, at, kcal }` of a day. -/
structure Entry where
  id : String
  atMs : ℕ
  kcal : ℚ
  deriving DecidableEq

/-- A day record `{ entries: [...] }`. -/
structure DayRecord where
  entries : List Entry
  deriving DecidableEq

/-- The daily log object: date string ↦ day record, `none` for an absent key. -/
abbrev Log := String → Option DayRecord

/-- The empty log `{}`. -/
def emptyLog : Log := fun _ => none

/-- Assignment `data[dateISO] = rec`. -/
def Log.set (data : Log) (dateISO : String) (rec : DayRecord) : Log :=
  fun d => if d = dateISO then some rec else data d

/-- The statement `delete data[dateISO]`. -/
def Log.delete (data : Log) (dateISO : String) : Log :=
  fun d => if d = dateISO then none else data d

/-- The stored daily target `{ kcal }`. -/
structure DailyTarget where
  kcal : ℚ
  deriving DecidableEq

/-- The two persisted items of the daily module: the item under `LS_TARGET`
(`none` when nothing is stored) and the log under `LS_LOG`. -/
structure Store where
  targetItem : Option DailyTarget
  log : Log

/-- Source `loadTarget = () => loadLS(LS_TARGET, { kcal: 2000 })`. -/
def loadTarget (s : Store) : DailyTarget :=
  match s.targetItem with
  | some t => t
  | none => { kcal := 2000 }

/-- Source `addEntry(dateISO, value, unit)`; `id` and `atMs` stand for
`crypto.randomUUID()` and `Date.now()`. -/
def addEntry (data : Log) (dateISO : String) (value : ℚ) (unit : String)
    (id : String) (atMs : ℕ) : Log :=
  let kcal : ℚ := if unit = "kJ" then value / KJ_PER_KCAL else value
  let entry : Entry := { id := id, atMs := atMs, kcal := (r0 (max 0 kcal) : ℚ) }
  let rec0 : DayRecord :=
    match data dateISO with
    | some r => r
    | none => { entries := [] }
  data.set dateISO { entries := rec0.entries ++ [entry] }

/-- Source `removeEntry(dateISO, id)`. -/
def removeEntry (data : Log) (dateISO : String) (id : String) : Log :=
  match data dateISO with
  | none => data
  | some r => data.set dateISO { entries := r.entries.filter (fun e => e.id != id) }

/-- Source `clearDay(dateISO)`. -/
def clearDay (data : Log) (dateISO : String) : Log :=
  data.delete dateISO

/-- Source `handleAddEntry`, as a step on the log: `parsed` is `parseFloat` of the
entry field, `dateISO` and `unit` the values of the date and unit controls. -/
def handleAddEntry (data : Log) (dateISO : String) (parsed : Option ℚ) (unit : String)
    (id : String) (atMs : ℕ) : Log :=
  let value := toNumber parsed
  if value > 0 then addEntry data dateISO value unit id atMs else data

/-- The object `getTotals` returns. -/
structure Totals where
  target : ℚ
  consumed : ℚ
  pct : ℤ
  remaining : ℚ
  over : ℚ
  entries : List Entry
  deriving DecidableEq

/-- Source `getTotals(dateISO)`. -/
def getTotals (s : Store) (dateISO : String) : Totals :=
  let data := s.log
  let target : ℚ := if (loadTarget s).kcal ≠ 0 then (loadTarget s).kcal else 0
  let entries : List Entry :=
    match data dateISO with
    | some r => r.entries
    | none => []
  let consumed : ℚ := entries.foldl (fun t e => t + e.kcal) 0
  let pct : ℤ := if target ≠ 0 then min 100 (r0 (consumed / target * 100)) else 0
  let remaining : ℚ := max 0 (target - consumed)
  let over : ℚ := max 0 (consumed - target)
  { target := target, consumed := consumed, pct := pct, remaining := remaining,
    over := over, entries := entries }

/-- Source `getProgressBarColor(pct)`. -/
def getProgressBarColor (pct : ℚ) : String :=
  if pct < 70 then "bg-success"
  else if pct ≤ 100 then "bg-warning"
  else "bg-danger"

/-! ## Expenditure estimator (BMR / TDEE) -/

/-- The builtin `String.prototype.trim`, on the characters of the string. -/
def trim (s : String) : String :=
  ⟨((s.data.dropWhile Char.isWhitespace).reverse.dropWhile Char.isWhitespace).reverse⟩

/-- The builtin `String.prototype.endsWith`, on the characters of the string. -/
def endsWith (s suffix : String) : Bool := suffix.data.isSuffixOf s.data

/-- Source `isPartial = (raw) => raw === '' || raw.endsWith('.') || raw === '-' || raw === '-.'`. -/
def isPartial (raw : String) : Bool :=
  raw == "" || endsWith raw "." || raw == "-" || raw == "-."

/-- The object `{ value, partial }` that `readNum` returns; `value = none` is `NaN`. -/
structure NumRead where
  value : Option ℚ
  partialFlag : Bool
  deriving DecidableEq

/-- Source `readNum(el)`, on the text `el.value` of the field.  `num raw` is
`Number(raw)` when that is finite and `none` otherwise, so that
`Number.isFinite(n) ? n : NaN` is `num raw`. -/
def readNum (num : String → Option ℚ) (elValue : String) : NumRead :=
  let raw := trim elValue
  if isPartial raw then { value := none, partialFlag := true }
  else { value := num raw, partialFlag := false }

/-- Source `bmrMifflin({ sex, kg, cm, age })`. -/
def bmrMifflin (sex : String) (kg cm age : ℚ) : ℚ :=
  if sex = "m" then 10 * kg + 625 / 100 * cm - 5 * age + 5
  else 10 * kg + 625 / 100 * cm - 5 * age - 161

/-- The text of a kcal element and of its kJ sibling, as the numbers shown
(`${r0(kcal)} kcal` and `${toKj(kcal)} kJ`). -/
structure Pair where
  kcal : ℤ
  kj : ℚ
  deriving DecidableEq

/-- Source `setPair(kcalId, kjId, kcal)`: the new content of the two elements. -/
def setPair (kcal : ℚ) : Pair :=
  { kcal := r0 kcal, kj := toKj kcal }

/-- The output elements of the TDEE card: the four kcal/kJ pairs and whether
`tdee-rapid-warn` carries the class `hidden`. -/
structure TdeeView where
  maint : Pair
  slow : Pair
  mod : Pair
  rapid : Pair
  warnHidden : Bool
  deriving DecidableEq

/-- The input controls of the TDEE card. -/
structure TdeeForm where
  sexM : Bool
  age : String
  height : String
  weight : String
  activity : String
  deriving DecidableEq

/-- The object `targets` of `computeTDEE`. -/
structure Targets where
  maintain : ℤ
  slow : ℤ
  moderate : ℤ
  rapid : ℤ
  deriving DecidableEq

/-- The object `{ bmr, tdee, targets, minSafe }` that `computeTDEE` returns. -/
structure TdeeResult where
  bmr : ℤ
  tdee : ℤ
  targets : Targets
  minSafe : ℤ
  deriving DecidableEq

/-- The expression `ACTIVITY_FACTORS[act] || 1.2`. -/
def activityFactor (act : String) : ℚ :=
  match ACTIVITY_FACTORS act with
  | some x => if x ≠ 0 then x else 12 / 10
  | none => 12 / 10

/-- Source `computeTDEE()`: from the input controls and the output elements before
the call, the output elements after the call and the returned object
(`none` for the bare `return`). -/
def computeTDEE (num : String → Option ℚ) (form : TdeeForm) (view : TdeeView) :
    TdeeView × Option TdeeResult :=
  let sex := if form.sexM then "m" else "f"
  let ageR := readNum num form.age
  let htR := readNum num form.height
  let wtR := readNum num form.weight
  let ageUse : Option ℚ := ageR.value.map (fun x => clamp x 14 90)
  let htUse : Option ℚ := htR.value.map (fun x => clamp x 120 220)
  let wtUse : Option ℚ := wtR.value.map (fun x => clamp x 35 250)
  match ageUse, htUse, wtUse with
  | some ageUse, some htUse, some wtUse =>
    let act := if form.activity ≠ "" then form.activity else "sedentary"
    let bmr := bmrMifflin sex wtUse htUse ageUse
    let tdee := bmr * activityFactor act
    let targets : Targets :=
      { maintain := r0 tdee
        slow := r0 (max 0 (tdee - 550))
        moderate := r0 (max 0 (tdee - 825))
        rapid := r0 (max 0 (tdee - 1100)) }
    let floor : ℤ := if sex = "m" then 1500 else 1200
    let minSafe : ℤ := max (r0 bmr) floor
    let flagRapid : Bool := decide (targets.rapid < minSafe)
    ({ maint := setPair targets.maintain
       slow := setPair targets.slow
       mod := setPair targets.moderate
       rapid := setPair targets.rapid
       warnHidden := !flagRapid },
     some { bmr := r0 bmr, tdee := r0 tdee, targets := targets, minSafe := minSafe })
  | _, _, _ =>
    ({ view with
       maint := setPair 0
       slow := setPair 0
       mod := setPair 0
       rapid := setPair 0
       warnHidden := true },
     none)

/-- The part of `renderDaily` that draws the progress bar: the width in
percent, the colour class of `daily-progress-fill` and `aria-valuenow`. -/
structure DailyProgress where
  width : ℤ
  colorClass : String
  ariaValueNow : ℤ
  deriving DecidableEq

/-- Source `renderDaily()`, restricted to the progress bar; `dateISO` is the
value of the date control. -/
def renderDaily (s : Store) (dateISO : String) : DailyProgress :=
  let totals := getTotals s dateISO
  { width := min 100 totals.pct
    colorClass := getProgressBarColor totals.pct
    ariaValueNow := totals.pct }

/-! ## Energy converter -/

/-- The state of the converter of `initConverter`: each input field as the
number `parseFloat` reads from its text (`none` for `NaN`), and the closure
variable `updating`. -/
structure Converter where
  kcalInput : Option ℚ
  kjInput : Option ℚ
  updating : Bool
  deriving DecidableEq

/-- Source `updateFromKcal`, the `input` handler of the kcal field. -/
def updateFromKcal (c : Converter) : Converter :=
  if c.updating then c
  else
    let kcal := toNumber c.kcalInput
    if kcal ≥ 0 then
      { kcalInput := c.kcalInput, kjInput := some (round1 (kcal * KJ_PER_KCAL)), updating := false }
    else
      { kcalInput := c.kcalInput, kjInput := c.kjInput, updating := false }

/-- Source `updateFromKj`, the `input` handler of the kJ field. -/
def updateFromKj (c : Converter) : Converter :=
  if c.updating then c
  else
    let kj := toNumber c.kjInput
    if kj ≥ 0 then
      { kcalInput := some (round1 (kj / KJ_PER_KCAL)), kjInput := c.kjInput, updating := false }
    else
      { kcalInput := c.kcalInput, kjInput := c.kjInput, updating := false }

/-- The state invariant of the spec's data model: every date key of the log
is either absent or holds at least one entry. -/
def Populated (data : Log) : Prop :=
  ∀ (d : String) (r : DayRecord), data d = some r → r.entries ≠ []

/-! ## Sample inputs -/

/-- A log with one day holding a single entry of 500 kcal. -/
def sampleLog : Log :=
  emptyLog.set "2024-05-01" { entries := [{ id := "a", atMs := 1, kcal := 500 }] }

/-- A store with target 2000 and the log `sampleLog`. -/
def sampleStore : Store :=
  { targetItem := some { kcal := 2000 }, log := sampleLog }

/-- A sample reading of the builtin `Number` on three field texts. -/
def sampleNum (raw : String) : Option ℚ :=
  if raw = "30" then some 30
  else if raw = "165" then some 165
  else if raw = "60" then some 60
  else none

/-- The form of the spec's scenario: female, age 30, 165 cm, 60 kg, sedentary. -/
def sampleForm : TdeeForm :=
  { sexM := false, age := "30", height := "165", weight := "60", activity := "sedentary" }

/-- The TDEE card as `resetTDEE` leaves it: zeros, warning hidden. -/
def zeroView : TdeeView :=
  { maint := { kcal := 0, kj := 0 }
    slow := { kcal := 0, kj := 0 }
    mod := { kcal := 0, kj := 0 }
    rapid := { kcal := 0, kj := 0 }
    warnHidden := true }

/-- The scenario form while the age field is being retyped: it is empty. -/
def typingForm : TdeeForm :=
  { sexM := false, age := "", height := "165", weight := "60", activity := "sedentary" }

/-- The TDEE card after `computeTDEE` ran on `sampleForm`. -/
def shownView : TdeeView :=
  (computeTDEE sampleNum sampleForm zeroView).1

/-- A store with target 2000 and one day of three entries, 2100 kcal in all. -/
def overStore : Store :=
  { targetItem := some { kcal := 2000 }
    log := emptyLog.set "2024-05-01"
      { entries := [{ id := "a", atMs := 1, kcal := 500 }, { id := "b", atMs := 2, kcal := 700 },
          { id := "c", atMs := 3, kcal := 900 }] } }

/-- The converter with both fields empty. -/
def emptyConverter : Converter :=
  { kcalInput := none, kjInput := none, updating := false }

/-! ## Auxiliary facts -/

theorem r0_mono {x y : ℚ} (h : x ≤ y) : r0 x ≤ r0 y := by
  unfold r0
  exact Int.floor_mono (by linarith)

theorem r0_intCast (n : ℤ) : r0 (n : ℚ) = n := by
  unfold r0
  rw [Int.floor_eq_iff]
  constructor <;> norm_num

theorem r0_nonneg {x : ℚ} (h : 0 ≤ x) : 0 ≤ r0 x := by
  have := r0_mono h
  have h0 : r0 0 = 0 := by simpa using r0_intCast 0
  omega

theorem foldl_kcal (entries : List Entry) (a : ℚ) :
    entries.foldl (fun t e => t + e.kcal) a = a + (entries.map Entry.kcal).sum := by
  induction entries generalizing a with
  | nil => simp
  | cons e es ih => simp [ih, add_assoc]

theorem set_same (data : Log) (d : String) (r : DayRecord) : (data.set d r) d = some r := by
  simp [Log.set]

theorem set_other (data : Log) (d d' : String) (r : DayRecord) (h : d' ≠ d) :
    (data.set d r) d' = data d' := by
  simp [Log.set, h]

/-! ## Daily log: totals -/

/-- C2: for every store and date the result of `getTotals` has
`remaining * over = 0`; `remaining` and `over` are both zero exactly when
`consumed = target`, and otherwise exactly one of them is non-zero; and
`pct = 0` whenever `target = 0`. -/
theorem getTotals_remaining_over (s : Store) (date : String) :
    (getTotals s date).remaining * (getTotals s date).over = 0 ∧
    (((getTotals s date).remaining = 0 ∧ (getTotals s date).over = 0) ↔
      (getTotals s date).consumed = (getTotals s date).target) ∧
    ((getTotals s date).consumed ≠ (getTotals s date).target →
      (((getTotals s date).remaining ≠ 0 ∧ (getTotals s date).over = 0) ∨
       ((getTotals s date).remaining = 0 ∧ (getTotals s date).over ≠ 0))) ∧
    ((getTotals s date).target = 0 → (getTotals s date).pct = 0) := by
  have hr : (getTotals s date).remaining =
      max 0 ((getTotals s date).target - (getTotals s date).consumed) := rfl
  have ho : (getTotals s date).over =
      max 0 ((getTotals s date).consumed - (getTotals s date).target) := rfl
  have hp : (getTotals s date).pct =
      if (getTotals s date).target ≠ 0 then
        min 100 (r0 ((getTotals s date).consumed / (getTotals s date).target * 100))
      else 0 := rfl
  rw [hr, ho]
  generalize (getTotals s date).target = t at hp ⊢
  generalize (getTotals s date).consumed = c at hp ⊢
  refine ⟨?_, ?_, ?_, ?_⟩
  · rcases le_total t c with h | h
    · rw [max_eq_left (by linarith : t - c ≤ 0)]; simp
    · rw [max_eq_left (by linarith : c - t ≤ 0)]; simp
  · constructor
    · rintro ⟨h1, h2⟩
      have a1 : t - c ≤ 0 := by rw [← h1]; exact le_max_right _ _
      have a2 : c - t ≤ 0 := by rw [← h2]; exact le_max_right _ _
      linarith
    · intro h
      subst h
      simp
  · intro hne
    rcases lt_or_gt_of_ne hne with h | h
    · left
      rw [max_eq_right (by linarith : (0 : ℚ) ≤ t - c), max_eq_left (by linarith : c - t ≤ 0)]
      exact ⟨by intro h0; linarith, rfl⟩
    · right
      rw [max_eq_left (by linarith : t - c ≤ 0), max_eq_right (by linarith : (0 : ℚ) ≤ c - t)]
      exact ⟨rfl, by intro h0; linarith⟩
  · intro h0
    rw [hp]
    simp [h0]

/-- An instance of C2: target 2000 and a single entry of 500 kcal, where
`consumed ≠ target` and only `remaining` is non-zero. -/
theorem getTotals_remaining_over_witness :
    (getTotals sampleStore "2024-05-01").consumed ≠
        (getTotals sampleStore "2024-05-01").target ∧
    (((getTotals sampleStore "2024-05-01").remaining ≠ 0 ∧
        (getTotals sampleStore "2024-05-01").over = 0) ∨
     ((getTotals sampleStore "2024-05-01").remaining = 0 ∧
        (getTotals sampleStore "2024-05-01").over ≠ 0)) :=
  have hne : (getTotals sampleStore "2024-05-01").consumed ≠
      (getTotals sampleStore "2024-05-01").target := by
    simp [getTotals, sampleStore, sampleLog, Log.set, emptyLog, loadTarget]
  ⟨hne, (getTotals_remaining_over sampleStore "2024-05-01").2.2.1 hne⟩

/-! ## Daily log: adding entries -/

theorem r0_max_zero_of_nonpos {x : ℚ} (h : x ≤ 0) : r0 (max 0 x) = 0 := by
  rw [max_eq_left h]
  simpa using r0_intCast 0

/-- C3, as the claim states it, fails: `addEntry` called with the value 0
stores a new entry (of 0 kcal), so the log after the call differs from the
log before it. -/
theorem addEntry_zero_creates_entry :
    (0 : ℚ) ≤ 0 ∧
    (addEntry emptyLog "2024-05-01" 0 "kcal" "id-1" 7) "2024-05-01" =
      some { entries := [{ id := "id-1", atMs := 7, kcal := 0 }] } ∧
    addEntry emptyLog "2024-05-01" 0 "kcal" "id-1" 7 ≠ emptyLog := by
  have h : (addEntry emptyLog "2024-05-01" 0 "kcal" "id-1" 7) "2024-05-01" =
      some { entries := [{ id := "id-1", atMs := 7, kcal := 0 }] } := by
    have h0 : r0 0 = 0 := by simpa using r0_intCast 0
    simp [addEntry, emptyLog, Log.set, h0]
  refine ⟨le_refl 0, h, ?_⟩
  intro hEq
  rw [hEq] at h
  simp [emptyLog] at h

/-- C3, amended: the check is in `handleAddEntry`.  When the entry field
reads as a non-positive number (`toNumber` of it is `≤ 0`, which includes
an unparseable field), `handleAddEntry` creates no entry: the log after the
call equals the log before it.  `addEntry` itself does not check: with a
value `≤ 0` it appends one entry of 0 kcal to the date's list. -/
theorem handleAddEntry_nonpositive (data : Log) (date : String) (parsed : Option ℚ)
    (unit id : String) (atMs : ℕ) (h : toNumber parsed ≤ 0) :
    handleAddEntry data date parsed unit id atMs = data ∧
    (addEntry data date (toNumber parsed) unit id atMs) date =
      some { entries :=
        (match data date with
         | some r => r.entries
         | none => []) ++ [{ id := id, atMs := atMs, kcal := 0 }] } := by
  constructor
  · simp [handleAddEntry, not_lt.mpr h]
  · have hk : (if unit = "kJ" then toNumber parsed / KJ_PER_KCAL else toNumber parsed) ≤ 0 := by
      split_ifs
      · exact div_nonpos_of_nonpos_of_nonneg h (by norm_num [KJ_PER_KCAL])
      · exact h
    simp only [addEntry, set_same, r0_max_zero_of_nonpos hk]
    cases data date <;> simp

/-- An instance of the amended C3: the entry field holds `-5`. -/
theorem handleAddEntry_nonpositive_witness :
    toNumber (some (-5)) ≤ 0 ∧
    handleAddEntry sampleLog "2024-05-01" (some (-5)) "kJ" "b" 2 = sampleLog ∧
    (addEntry sampleLog "2024-05-01" (toNumber (some (-5))) "kJ" "b" 2) "2024-05-01" =
      some { entries :=
        (match sampleLog "2024-05-01" with
         | some r => r.entries
         | none => []) ++ [{ id := "b", atMs := 2, kcal := 0 }] } :=
  have h : toNumber (some (-5)) ≤ 0 := by simp [toNumber]
  ⟨h, handleAddEntry_nonpositive sampleLog "2024-05-01" (some (-5)) "kJ" "b" 2 h⟩

theorem populated_sampleLog : Populated sampleLog := by
  intro d r h
  simp only [sampleLog, Log.set, emptyLog] at h
  split_ifs at h
  cases h
  simp

theorem removeEntry_same (data : Log) (date id : String) (r : DayRecord)
    (h : data date = some r) :
    (removeEntry data date id) date =
      some { entries := r.entries.filter (fun e => e.id != id) } := by
  simp [removeEntry, h, set_same]

theorem removeEntry_other (data : Log) (date id d : String) (h : d ≠ date) :
    (removeEntry data date id) d = data d := by
  unfold removeEntry
  cases data date with
  | none => rfl
  | some r => exact set_other _ _ _ _ h

/-- C5, as the claim states it, fails: in `sampleLog` no present date has an
empty entry list, and after `removeEntry` removes the only entry of
`2024-05-01` that date is still present, with an empty entry list. -/
theorem removeEntry_last_keeps_date :
    Populated sampleLog ∧
    sampleLog "2024-05-01" = some { entries := [{ id := "a", atMs := 1, kcal := 500 }] } ∧
    (removeEntry sampleLog "2024-05-01" "a") "2024-05-01" = some { entries := [] } ∧
    ¬ Populated (removeEntry sampleLog "2024-05-01" "a") := by
  have h0 : sampleLog "2024-05-01" =
      some { entries := [{ id := "a", atMs := 1, kcal := 500 }] } := by
    simp [sampleLog, Log.set]
  have h1 : (removeEntry sampleLog "2024-05-01" "a") "2024-05-01" = some { entries := [] } := by
    rw [removeEntry_same _ _ _ _ h0]
    simp
  exact ⟨populated_sampleLog, h0, h1, fun hp => hp _ _ h1 rfl⟩

/-- C5, amended: `addEntry` and `clearDay` preserve the invariant that no
present date has an empty entry list, and after `clearDay(date)` the date key
is absent.  `removeEntry` never deletes a date key: when it removes the last
remaining entries of a date, the date stays present with an empty entry list
and the other dates are unchanged; `getTotals` reads that date as it reads an
absent one. -/
theorem populated_steps :
    (∀ (data : Log) (date : String) (value : ℚ) (unit id : String) (atMs : ℕ),
      Populated data → Populated (addEntry data date value unit id atMs)) ∧
    (∀ (data : Log) (date : String),
      Populated data → Populated (clearDay data date) ∧ (clearDay data date) date = none) ∧
    (∀ (data : Log) (date id : String) (r : DayRecord),
      data date = some r → (∀ e ∈ r.entries, e.id = id) →
        (removeEntry data date id) date = some { entries := [] } ∧
        (∀ d : String, d ≠ date → (removeEntry data date id) d = data d) ∧
        ∀ target : Option DailyTarget,
          getTotals { targetItem := target, log := removeEntry data date id } date =
            getTotals { targetItem := target, log := clearDay data date } date) := by
  refine ⟨?_, ?_, ?_⟩
  · intro data date value unit id atMs hp d r hd
    by_cases hdd : d = date
    · subst hdd
      simp only [addEntry, set_same, Option.some.injEq] at hd
      rw [← hd]
      simp
    · simp only [addEntry, set_other _ _ _ _ hdd] at hd
      exact hp d r hd
  · intro data date hp
    refine ⟨?_, by simp [clearDay, Log.delete]⟩
    intro d r hd
    simp only [clearDay, Log.delete] at hd
    split_ifs at hd
    exact hp d r hd
  · intro data date id r hr hall
    have hf : r.entries.filter (fun e => e.id != id) = [] := by
      rw [List.filter_eq_nil_iff]
      intro e he
      simp [hall e he]
    have h1 : (removeEntry data date id) date = some { entries := [] } := by
      rw [removeEntry_same _ _ _ _ hr, hf]
    refine ⟨h1, fun d hd => removeEntry_other _ _ _ _ hd, fun target => ?_⟩
    simp [getTotals, h1, clearDay, Log.delete, loadTarget]

/-- An instance of the amended C5 on `sampleLog`, whose only entry has id `a`. -/
theorem populated_steps_witness :
    Populated sampleLog ∧
    Populated (addEntry sampleLog "2024-05-02" 300 "kcal" "b" 2) ∧
    (Populated (clearDay sampleLog "2024-05-01") ∧
      (clearDay sampleLog "2024-05-01") "2024-05-01" = none) ∧
    (removeEntry sampleLog "2024-05-01" "a") "2024-05-01" = some { entries := [] } :=
  ⟨populated_sampleLog,
   populated_steps.1 sampleLog "2024-05-02" 300 "kcal" "b" 2 populated_sampleLog,
   populated_steps.2.1 sampleLog "2024-05-01" populated_sampleLog,
   (populated_steps.2.2 sampleLog "2024-05-01" "a"
      { entries := [{ id := "a", atMs := 1, kcal := 500 }] }
      (by simp [sampleLog, Log.set]) (by simp)).1⟩

/-- C6: for a present date, `removeEntry(date, id)` replaces the date's
entries by the same list without the entries whose id is `id` (the others in
their original order) and leaves the other dates unchanged; it leaves the log
unchanged when the date is absent or no entry of the date has the id; and
calling it twice yields the same log as calling it once. -/
theorem removeEntry_spec :
    (∀ (data : Log) (date id : String) (r : DayRecord), data date = some r →
      (removeEntry data date id) date =
        some { entries := r.entries.filter (fun e => decide (e.id ≠ id)) }) ∧
    (∀ (data : Log) (date id d : String), d ≠ date →
      (removeEntry data date id) d = data d) ∧
    (∀ (data : Log) (date id : String), data date = none →
      removeEntry data date id = data) ∧
    (∀ (data : Log) (date id : String) (r : DayRecord), data date = some r →
      (∀ e ∈ r.entries, e.id ≠ id) → removeEntry data date id = data) ∧
    (∀ (data : Log) (date id : String),
      removeEntry (removeEntry data date id) date id = removeEntry data date id) := by
  refine ⟨?_, ?_, ?_, ?_, ?_⟩
  · intro data date id r hr
    rw [removeEntry_same _ _ _ _ hr]
    congr 2
    apply List.filter_congr
    intro e _
    by_cases h : e.id = id <;> simp [h]
  · intro data date id d hd
    exact removeEntry_other _ _ _ _ hd
  · intro data date id hn
    simp [removeEntry, hn]
  · intro data date id r hr hall
    funext d
    by_cases hd : d = date
    · subst hd
      rw [removeEntry_same _ _ _ _ hr, hr]
      congr 2
      rw [List.filter_eq_self]
      intro e he
      simp [hall e he]
    · exact removeEntry_other _ _ _ _ hd
  · intro data date id
    funext d
    by_cases hd : d = date
    · subst hd
      cases hr : data d with
      | none => simp [removeEntry, hr]
      | some r =>
        rw [removeEntry_same _ _ _ _ (removeEntry_same _ _ _ _ hr), removeEntry_same _ _ _ _ hr]
        simp [List.filter_filter]
    · rw [removeEntry_other _ _ _ _ hd]

/-- An instance of C6 on `sampleLog`: removing the id `a` empties the list of
`2024-05-01`, and removing the unused id `zz` changes nothing. -/
theorem removeEntry_spec_witness :
    (removeEntry sampleLog "2024-05-01" "a") "2024-05-01" =
      some { entries := List.filter (fun e => decide (e.id ≠ "a"))
                [{ id := "a", atMs := 1, kcal := 500 }] } ∧
    removeEntry sampleLog "2024-05-01" "zz" = sampleLog ∧
    removeEntry sampleLog "2024-05-03" "a" = sampleLog :=
  ⟨removeEntry_spec.1 sampleLog "2024-05-01" "a" _ (by simp [sampleLog, Log.set]),
   removeEntry_spec.2.2.2.1 sampleLog "2024-05-01" "zz"
      { entries := [{ id := "a", atMs := 1, kcal := 500 }] }
      (by simp [sampleLog, Log.set]) (by simp),
   removeEntry_spec.2.2.1 sampleLog "2024-05-03" "a" (by simp [sampleLog, Log.set, emptyLog])⟩

/-! ## Expenditure estimator -/

theorem setPair_zero : setPair 0 = { kcal := 0, kj := 0 } := by
  have h0 : r0 0 = 0 := by simpa using r0_intCast 0
  simp [setPair, toKj, r1, h0]

theorem readNum_partial_value (num : String → Option ℚ) (x : String)
    (h : isPartial (trim x) = true) : (readNum num x).value = none := by
  simp [readNum, h]

theorem computeTDEE_of_none (num : String → Option ℚ) (form : TdeeForm) (view : TdeeView)
    (h : (readNum num form.age).value = none ∨ (readNum num form.height).value = none ∨
      (readNum num form.weight).value = none) :
    computeTDEE num form view = (zeroView, none) := by
  unfold computeTDEE
  simp only [setPair_zero, zeroView]
  rcases h with h | h | h
  · simp [h]
  · cases ha : (readNum num form.age).value <;> simp [h]
  · cases ha : (readNum num form.age).value <;>
      cases hh : (readNum num form.height).value <;> simp [h]

theorem computeTDEE_of_some (num : String → Option ℚ) (form : TdeeForm) (view : TdeeView)
    (a h w bmr tdee : ℚ)
    (ha : (readNum num form.age).value = some a)
    (hh : (readNum num form.height).value = some h)
    (hw : (readNum num form.weight).value = some w)
    (hb : bmr = bmrMifflin (if form.sexM then "m" else "f")
      (clamp w 35 250) (clamp h 120 220) (clamp a 14 90))
    (ht : tdee = bmr * activityFactor (if form.activity ≠ "" then form.activity else "sedentary")) :
    computeTDEE num form view =
      ({ maint := setPair (r0 tdee)
         slow := setPair (r0 (max 0 (tdee - 550)))
         mod := setPair (r0 (max 0 (tdee - 825)))
         rapid := setPair (r0 (max 0 (tdee - 1100)))
         warnHidden := !decide (r0 (max 0 (tdee - 1100)) <
            max (r0 bmr) (if form.sexM then 1500 else 1200)) },
       some { bmr := r0 bmr
              tdee := r0 tdee
              targets :=
                { maintain := r0 tdee
                  slow := r0 (max 0 (tdee - 550))
                  moderate := r0 (max 0 (tdee - 825))
                  rapid := r0 (max 0 (tdee - 1100)) }
              minSafe := max (r0 bmr) (if form.sexM then 1500 else 1200) }) := by
  subst ht hb
  unfold computeTDEE
  simp only [ha, hh, hw, Option.map_some']
  cases form.sexM <;> simp

theorem sampleForm_reads :
    (readNum sampleNum sampleForm.age).value = some 30 ∧
    (readNum sampleNum sampleForm.height).value = some 165 ∧
    (readNum sampleNum sampleForm.weight).value = some 60 := by
  have p1 : isPartial "30" = false := by decide
  have p2 : isPartial "165" = false := by decide
  have p3 : isPartial "60" = false := by decide
  have t1 : trim "30" = "30" := by decide
  have t2 : trim "165" = "165" := by decide
  have t3 : trim "60" = "60" := by decide
  simp [readNum, sampleForm, p1, p2, p3, t1, t2, t3, sampleNum]

theorem r0_eq_of_bounds {x : ℚ} {n : ℤ} (h1 : (n : ℚ) ≤ x + 1 / 2) (h2 : x + 1 / 2 < n + 1) :
    r0 x = n := by
  unfold r0
  rw [Int.floor_eq_iff]
  exact ⟨h1, h2⟩

theorem computeTDEE_scenario (num : String → Option ℚ) (form : TdeeForm) (view : TdeeView)
    (hs : form.sexM = false) (hact : form.activity = "sedentary")
    (ha : (readNum num form.age).value = some 30)
    (hh : (readNum num form.height).value = some 165)
    (hw : (readNum num form.weight).value = some 60) :
    bmrMifflin "f" 60 165 30 = 132025 / 100 ∧
    ∃ res : TdeeResult, (computeTDEE num form view).2 = some res ∧
      res.bmr = 1320 ∧ res.tdee = 1584 ∧ res.targets.rapid = 484 ∧
      res.minSafe = 1320 ∧ (computeTDEE num form view).1.warnHidden = false ∧
      (computeTDEE num form view).1.maint.kcal = 1584 ∧
      (computeTDEE num form view).1.rapid.kcal = 484 := by
  have hfm : ¬ ("f" = "m") := by decide
  have hbmr : bmrMifflin "f" 60 165 30 = 132025 / 100 := by
    norm_num [bmrMifflin, hfm]
  have hb : (132025 / 100 : ℚ) = bmrMifflin (if form.sexM then "m" else "f")
      (clamp 60 35 250) (clamp 165 120 220) (clamp 30 14 90) := by
    rw [hs]
    norm_num [bmrMifflin, clamp, hfm]
  have ht : (158430 / 100 : ℚ) = 132025 / 100 *
      activityFactor (if form.activity ≠ "" then form.activity else "sedentary") := by
    rw [hact]
    norm_num [activityFactor, ACTIVITY_FACTORS]
  have e1 : r0 (132025 / 100) = 1320 := r0_eq_of_bounds (by norm_num) (by norm_num)
  have e2 : r0 (158430 / 100) = 1584 := r0_eq_of_bounds (by norm_num) (by norm_num)
  have e3 : r0 (max 0 (158430 / 100 - 1100)) = 484 := by
    rw [max_eq_right (by norm_num)]
    exact r0_eq_of_bounds (by norm_num) (by norm_num)
  rw [computeTDEE_of_some num form view 30 165 60 _ _ ha hh hw hb ht]
  refine ⟨hbmr, _, rfl, ?_, ?_, ?_, ?_, ?_, ?_, ?_⟩
  · exact e1
  · exact e2
  · exact e3
  · simp [e1, hs]
  · simp [e1, e3, hs]
  · simp only [setPair, e2]
    exact r0_intCast _
  · simp only [setPair, e3]
    exact r0_intCast _

/-- C8: when the three numeric fields read as finite numbers, with `bmr` the
Mifflin value on the clamped inputs, `computeTDEE` returns `minSafe` equal to
`max(round(bmr), 1500)` for male and `max(round(bmr), 1200)` for female, and
the rapid-pace warning is shown if and only if the rapid target is strictly
below `minSafe`; for female, age 30, height 165, weight 60, sedentary, the
BMR is 1320.25, the rounded TDEE 1584, the rapid target 484 and the warning
is shown. -/
theorem computeTDEE_minSafe :
    (∀ (num : String → Option ℚ) (form : TdeeForm) (view : TdeeView) (a h w bmr : ℚ),
      (readNum num form.age).value = some a →
      (readNum num form.height).value = some h →
      (readNum num form.weight).value = some w →
      bmr = bmrMifflin (if form.sexM then "m" else "f")
        (clamp w 35 250) (clamp h 120 220) (clamp a 14 90) →
      ∃ res : TdeeResult, (computeTDEE num form view).2 = some res ∧
        res.bmr = r0 bmr ∧
        res.minSafe = max (r0 bmr) (if form.sexM then 1500 else 1200) ∧
        ((computeTDEE num form view).1.warnHidden = false ↔
          res.targets.rapid < res.minSafe)) ∧
    (∀ (num : String → Option ℚ) (form : TdeeForm) (view : TdeeView),
      form.sexM = false → form.activity = "sedentary" →
      (readNum num form.age).value = some 30 →
      (readNum num form.height).value = some 165 →
      (readNum num form.weight).value = some 60 →
      bmrMifflin "f" 60 165 30 = 132025 / 100 ∧
      ∃ res : TdeeResult, (computeTDEE num form view).2 = some res ∧
        res.bmr = 1320 ∧ res.tdee = 1584 ∧ res.targets.rapid = 484 ∧
        res.minSafe = 1320 ∧ (computeTDEE num form view).1.warnHidden = false) := by
  constructor
  · intro num form view a h w bmr ha hh hw hb
    rw [computeTDEE_of_some num form view a h w bmr _ ha hh hw hb rfl]
    refine ⟨_, rfl, rfl, rfl, ?_⟩
    simp only [Bool.not_eq_false', decide_eq_true_eq]
  · intro num form view hs hact ha hh hw
    obtain ⟨hbmr, res, h1, h2, h3, h4, h5, h6, _⟩ :=
      computeTDEE_scenario num form view hs hact ha hh hw
    exact ⟨hbmr, res, h1, h2, h3, h4, h5, h6⟩

/-- An instance of C8: the scenario evaluated on `sampleForm`. -/
theorem computeTDEE_minSafe_witness :
    ((readNum sampleNum sampleForm.age).value = some 30 ∧
      (readNum sampleNum sampleForm.height).value = some 165 ∧
      (readNum sampleNum sampleForm.weight).value = some 60) ∧
    bmrMifflin "f" 60 165 30 = 132025 / 100 ∧
    ∃ res : TdeeResult, (computeTDEE sampleNum sampleForm zeroView).2 = some res ∧
      res.bmr = 1320 ∧ res.tdee = 1584 ∧ res.targets.rapid = 484 ∧
      res.minSafe = 1320 ∧ (computeTDEE sampleNum sampleForm zeroView).1.warnHidden = false :=
  ⟨sampleForm_reads,
   computeTDEE_minSafe.2 sampleNum sampleForm zeroView rfl rfl
    sampleForm_reads.1 sampleForm_reads.2.1 sampleForm_reads.2.2⟩

theorem shownView_eq :
    shownView.maint.kcal = 1584 ∧ shownView.rapid.kcal = 484 ∧ shownView.warnHidden = false := by
  obtain ⟨_, _, _, _, _, _, _, h6, h7, h8⟩ :=
    computeTDEE_scenario sampleNum sampleForm zeroView rfl rfl
      sampleForm_reads.1 sampleForm_reads.2.1 sampleForm_reads.2.2
  exact ⟨h7, h8, h6⟩

theorem typingForm_age_incomplete : isPartial (trim typingForm.age) = true := by
  decide

/-- C10, as the claim states it, fails: the TDEE card shows the scenario's
targets (maintain 1584, rapid 484, warning shown) and the age field is then
emptied, a partially-typed value; `computeTDEE` does not retain that output
but sets the displayed targets to 0 and hides the warning. -/
theorem computeTDEE_resets_output :
    isPartial (trim typingForm.age) = true ∧
    (shownView.maint.kcal = 1584 ∧ shownView.rapid.kcal = 484 ∧
      shownView.warnHidden = false) ∧
    ((computeTDEE sampleNum typingForm shownView).1.maint.kcal = 0 ∧
      (computeTDEE sampleNum typingForm shownView).1.rapid.kcal = 0 ∧
      (computeTDEE sampleNum typingForm shownView).1.warnHidden = true) ∧
    (computeTDEE sampleNum typingForm shownView).1 ≠ shownView := by
  have h : computeTDEE sampleNum typingForm shownView = (zeroView, none) :=
    computeTDEE_of_none _ _ _ (Or.inl (readNum_partial_value _ _ typingForm_age_incomplete))
  refine ⟨typingForm_age_incomplete, shownView_eq, ?_, ?_⟩
  · rw [h]
    exact ⟨rfl, rfl, rfl⟩
  · rw [h]
    intro hEq
    have h1 := shownView_eq.1
    rw [← hEq] at h1
    simp [zeroView] at h1

/-- C10, amended: when any of the age, height or weight fields holds a
partially-typed value (empty string, a value ending in a decimal point, a
bare minus sign), `computeTDEE` skips the BMR/TDEE computation and returns
nothing, and it does not retain the prior output: whatever was displayed
before the call, after it the four displayed targets are 0 (kcal and kJ) and
the warning is hidden. -/
theorem computeTDEE_partial_input (num : String → Option ℚ) (form : TdeeForm) (view : TdeeView)
    (h : isPartial (trim form.age) = true ∨ isPartial (trim form.height) = true ∨
      isPartial (trim form.weight) = true) :
    (computeTDEE num form view).2 = none ∧
    (computeTDEE num form view).1 =
      { maint := { kcal := 0, kj := 0 }
        slow := { kcal := 0, kj := 0 }
        mod := { kcal := 0, kj := 0 }
        rapid := { kcal := 0, kj := 0 }
        warnHidden := true } := by
  have hn : (readNum num form.age).value = none ∨ (readNum num form.height).value = none ∨
      (readNum num form.weight).value = none := by
    rcases h with h | h | h
    · exact Or.inl (readNum_partial_value _ _ h)
    · exact Or.inr (Or.inl (readNum_partial_value _ _ h))
    · exact Or.inr (Or.inr (readNum_partial_value _ _ h))
  rw [computeTDEE_of_none num form view hn]
  exact ⟨rfl, rfl⟩

/-- An instance of the amended C10: the age field of the scenario form is
empty while the card shows the scenario's targets. -/
theorem computeTDEE_partial_input_witness :
    (isPartial (trim typingForm.age) = true ∨ isPartial (trim typingForm.height) = true ∨
      isPartial (trim typingForm.weight) = true) ∧
    (computeTDEE sampleNum typingForm shownView).2 = none ∧
    (computeTDEE sampleNum typingForm shownView).1 =
      { maint := { kcal := 0, kj := 0 }
        slow := { kcal := 0, kj := 0 }
        mod := { kcal := 0, kj := 0 }
        rapid := { kcal := 0, kj := 0 }
        warnHidden := true } :=
  ⟨Or.inl typingForm_age_incomplete,
   computeTDEE_partial_input sampleNum typingForm shownView (Or.inl typingForm_age_incomplete)⟩

/-- C11: when at least one of the age, height or weight fields does not read
as a finite number, `computeTDEE` displays all four targets as zero and has
the rapid-pace warning hidden, and returns no result, whatever the sex, the
activity level, the other fields and the prior display are; when all three
read as finite numbers it returns and displays the targets computed from
them (clamped) and the activity factor. -/
theorem computeTDEE_finite_or_zero :
    (∀ (num : String → Option ℚ) (form : TdeeForm) (view : TdeeView),
      ((readNum num form.age).value = none ∨ (readNum num form.height).value = none ∨
        (readNum num form.weight).value = none) →
      (computeTDEE num form view).2 = none ∧
      (computeTDEE num form view).1.maint = { kcal := 0, kj := 0 } ∧
      (computeTDEE num form view).1.slow = { kcal := 0, kj := 0 } ∧
      (computeTDEE num form view).1.mod = { kcal := 0, kj := 0 } ∧
      (computeTDEE num form view).1.rapid = { kcal := 0, kj := 0 } ∧
      (computeTDEE num form view).1.warnHidden = true) ∧
    (∀ (num : String → Option ℚ) (form : TdeeForm) (view : TdeeView) (a h w tdee : ℚ),
      (readNum num form.age).value = some a →
      (readNum num form.height).value = some h →
      (readNum num form.weight).value = some w →
      tdee = bmrMifflin (if form.sexM then "m" else "f")
          (clamp w 35 250) (clamp h 120 220) (clamp a 14 90) *
        activityFactor (if form.activity ≠ "" then form.activity else "sedentary") →
      ∃ res : TdeeResult, (computeTDEE num form view).2 = some res ∧
        res.targets =
          { maintain := r0 tdee
            slow := r0 (max 0 (tdee - 550))
            moderate := r0 (max 0 (tdee - 825))
            rapid := r0 (max 0 (tdee - 1100)) } ∧
        (computeTDEE num form view).1.maint.kcal = r0 tdee ∧
        (computeTDEE num form view).1.slow.kcal = r0 (max 0 (tdee - 550)) ∧
        (computeTDEE num form view).1.mod.kcal = r0 (max 0 (tdee - 825)) ∧
        (computeTDEE num form view).1.rapid.kcal = r0 (max 0 (tdee - 1100))) := by
  constructor
  · intro num form view hn
    rw [computeTDEE_of_none num form view hn]
    exact ⟨rfl, rfl, rfl, rfl, rfl, rfl⟩
  · intro num form view a h w tdee ha hh hw ht
    rw [computeTDEE_of_some num form view a h w _ tdee ha hh hw rfl ht]
    exact ⟨_, rfl, rfl, r0_intCast _, r0_intCast _, r0_intCast _, r0_intCast _⟩

/-- An instance of C11: with the age field empty the card shows zeros and the
warning is hidden although it showed the scenario's targets before; with the
scenario form a result is returned. -/
theorem computeTDEE_finite_or_zero_witness :
    (readNum sampleNum typingForm.age).value = none ∧
    ((computeTDEE sampleNum typingForm shownView).2 = none ∧
      (computeTDEE sampleNum typingForm shownView).1.maint = { kcal := 0, kj := 0 } ∧
      (computeTDEE sampleNum typingForm shownView).1.slow = { kcal := 0, kj := 0 } ∧
      (computeTDEE sampleNum typingForm shownView).1.mod = { kcal := 0, kj := 0 } ∧
      (computeTDEE sampleNum typingForm shownView).1.rapid = { kcal := 0, kj := 0 } ∧
      (computeTDEE sampleNum typingForm shownView).1.warnHidden = true) ∧
    ∃ res : TdeeResult, (computeTDEE sampleNum sampleForm zeroView).2 = some res :=
  have hn : (readNum sampleNum typingForm.age).value = none :=
    readNum_partial_value _ _ typingForm_age_incomplete
  ⟨hn, computeTDEE_finite_or_zero.1 sampleNum typingForm shownView (Or.inl hn),
    (computeTDEE_finite_or_zero.2 sampleNum sampleForm zeroView 30 165 60 _
      sampleForm_reads.1 sampleForm_reads.2.1 sampleForm_reads.2.2 rfl).imp fun _ hr => hr.1⟩

/-! ## Energy converter -/

theorem round1_bounds (y : ℚ) : y - 1 / 20 < round1 y ∧ round1 y ≤ y + 1 / 20 := by
  have h1 : ((r0 (y * 10) : ℤ) : ℚ) ≤ y * 10 + 1 / 2 := Int.floor_le _
  have h2 : y * 10 + 1 / 2 < ((r0 (y * 10) : ℤ) : ℚ) + 1 := Int.lt_floor_add_one _
  unfold round1
  constructor
  · rw [lt_div_iff₀ (by norm_num)]
    linarith
  · rw [div_le_iff₀ (by norm_num)]
    linarith

theorem round1_nonneg {y : ℚ} (h : 0 ≤ y) : 0 ≤ round1 y := by
  unfold round1
  have h0 : 0 ≤ r0 (y * 10) := r0_nonneg (by linarith)
  have h1 : (0 : ℚ) ≤ (r0 (y * 10) : ℚ) := by exact_mod_cast h0
  exact div_nonneg h1 (by norm_num)

theorem round1_eq (y : ℚ) : round1 y = (⌊y * 10 + 1 / 2⌋ : ℚ) / 10 := rfl

theorem updateFromKcal_nonneg (c : Converter) (x : ℚ) (hu : c.updating = false)
    (hx : c.kcalInput = some x) (h0 : 0 ≤ x) :
    updateFromKcal c =
      { kcalInput := some x, kjInput := some (round1 (x * KJ_PER_KCAL)), updating := false } := by
  simp [updateFromKcal, hu, hx, toNumber, h0]

theorem updateFromKj_nonneg (c : Converter) (x : ℚ) (hu : c.updating = false)
    (hx : c.kjInput = some x) (h0 : 0 ≤ x) :
    updateFromKj c =
      { kcalInput := some (round1 (x / KJ_PER_KCAL)), kjInput := some x, updating := false } := by
  simp [updateFromKj, hu, hx, toNumber, h0]

/-- C12, as the claim states it, fails: 1 kJ typed in the kJ field gives
0.2 kcal, and that kcal value gives back 0.8 kJ, which is 0.2 kJ away from
1 kJ, more than 0.1. -/
theorem converter_roundtrip_off :
    (0 : ℚ) ≤ 1 ∧
    (updateFromKj { emptyConverter with kjInput := some 1 }).kcalInput = some (2 / 10) ∧
    (updateFromKcal (updateFromKj { emptyConverter with kjInput := some 1 })).kjInput =
      some (8 / 10) ∧
    ¬ (|(8 / 10 : ℚ) - 1| ≤ 1 / 10) := by
  have h1 : updateFromKj { emptyConverter with kjInput := some 1 } =
      { kcalInput := some (2 / 10), kjInput := some 1, updating := false } := by
    rw [updateFromKj_nonneg _ 1 rfl rfl (by norm_num)]
    have e : r0 (1 / KJ_PER_KCAL * 10) = 2 :=
      r0_eq_of_bounds (by norm_num [KJ_PER_KCAL]) (by norm_num [KJ_PER_KCAL])
    simp only [round1, e]
    norm_num
  have h2 : updateFromKcal { kcalInput := some (2 / 10), kjInput := some 1, updating := false } =
      { kcalInput := some (2 / 10), kjInput := some (8 / 10), updating := false } := by
    rw [updateFromKcal_nonneg _ (2 / 10) rfl rfl (by norm_num)]
    have e : r0 (2 / 10 * KJ_PER_KCAL * 10) = 8 :=
      r0_eq_of_bounds (by norm_num [KJ_PER_KCAL]) (by norm_num [KJ_PER_KCAL])
    simp only [round1, e]
    norm_num
  refine ⟨by norm_num, ?_, ?_, ?_⟩
  · rw [h1]
  · rw [h1, h2]
  · rw [abs_le]
    norm_num

/-- C12, amended: for every `x ≥ 0`, converting `x` kJ to kcal with the
converter (round to one decimal of `x / 4.184`) and converting the result
back to kJ (round to one decimal of `kcal * 4.184`) gives a value within
0.2592 kJ of `x`, that is `0.05 * 4.184` from the kcal rounding plus `0.05`
from the kJ rounding. -/
theorem converter_roundtrip (c : Converter) (x : ℚ) (hu : c.updating = false)
    (hx : c.kjInput = some x) (h0 : 0 ≤ x) :
    ∃ y : ℚ, (updateFromKcal (updateFromKj c)).kjInput = some y ∧
      y = (⌊(⌊x / (4184 / 1000) * 10 + 1 / 2⌋ : ℚ) / 10 * (4184 / 1000) * 10 + 1 / 2⌋ : ℚ) / 10 ∧
      |y - x| ≤ 2592 / 10000 := by
  have hk : 0 ≤ round1 (x / KJ_PER_KCAL) :=
    round1_nonneg (div_nonneg h0 (by norm_num [KJ_PER_KCAL]))
  rw [updateFromKj_nonneg c x hu hx h0, updateFromKcal_nonneg _ _ rfl rfl hk]
  refine ⟨_, rfl, rfl, ?_⟩
  have b1 := round1_bounds (x / KJ_PER_KCAL)
  have b2 := round1_bounds (round1 (x / KJ_PER_KCAL) * KJ_PER_KCAL)
  have hxu : x = x / KJ_PER_KCAL * KJ_PER_KCAL := by
    rw [div_mul_cancel₀]
    norm_num [KJ_PER_KCAL]
  generalize round1 (round1 (x / KJ_PER_KCAL) * KJ_PER_KCAL) = y at b2 ⊢
  generalize round1 (x / KJ_PER_KCAL) = k at b1 b2
  generalize x / KJ_PER_KCAL = u at b1 hxu
  rw [hxu, abs_le]
  simp only [KJ_PER_KCAL] at b2 ⊢
  constructor <;> linarith [b1.1, b1.2, b2.1, b2.2]

/-- An instance of the amended C12: 1 kJ comes back as a value within
0.2592 kJ of 1. -/
theorem converter_roundtrip_witness :
    (0 : ℚ) ≤ 1 ∧
    ∃ y : ℚ, (updateFromKcal (updateFromKj { emptyConverter with kjInput := some 1 })).kjInput =
        some y ∧
      |y - 1| ≤ 2592 / 10000 :=
  ⟨by norm_num,
   (converter_roundtrip { emptyConverter with kjInput := some 1 } 1 rfl rfl (by norm_num)).imp
    fun _ hy => ⟨hy.1, hy.2.2⟩⟩

/-! ## Daily log: progress bar -/

/-- C14: for every number `pct`, `getProgressBarColor(pct)` is `bg-success`
exactly when `pct < 70`, `bg-warning` exactly when `70 ≤ pct ≤ 100`, and
`bg-danger` exactly when `pct > 100`. -/
theorem getProgressBarColor_spec (pct : ℚ) :
    (getProgressBarColor pct = "bg-success" ↔ pct < 70) ∧
    (getProgressBarColor pct = "bg-warning" ↔ 70 ≤ pct ∧ pct ≤ 100) ∧
    (getProgressBarColor pct = "bg-danger" ↔ 100 < pct) := by
  have d1 : ¬ ("bg-success" = "bg-warning") := by decide
  have d2 : ¬ ("bg-success" = "bg-danger") := by decide
  have d3 : ¬ ("bg-warning" = "bg-success") := by decide
  have d4 : ¬ ("bg-warning" = "bg-danger") := by decide
  have d5 : ¬ ("bg-danger" = "bg-success") := by decide
  have d6 : ¬ ("bg-danger" = "bg-warning") := by decide
  unfold getProgressBarColor
  by_cases h1 : pct < 70
  · have h2 : ¬ (70 ≤ pct) := not_le.mpr h1
    have h3 : ¬ (100 < pct) := by intro h; linarith
    simp [h1, h2, h3, d1, d2]
  · by_cases h2 : pct ≤ 100
    · have h3 : ¬ (100 < pct) := not_lt.mpr h2
      simp [h1, h2, h3, d3, d4, not_lt.mp h1]
    · have h3 : 100 < pct := not_le.mp h2
      simp [h1, h2, h3, d5, d6]

/-- An instance of C14 at the two thresholds and above them. -/
theorem getProgressBarColor_spec_witness :
    getProgressBarColor 69 = "bg-success" ∧ getProgressBarColor 70 = "bg-warning" ∧
    getProgressBarColor 100 = "bg-warning" ∧ getProgressBarColor 101 = "bg-danger" :=
  ⟨(getProgressBarColor_spec 69).1.mpr (by norm_num),
   (getProgressBarColor_spec 70).2.1.mpr ⟨by norm_num, by norm_num⟩,
   (getProgressBarColor_spec 100).2.1.mpr ⟨by norm_num, by norm_num⟩,
   (getProgressBarColor_spec 101).2.2.mpr (by norm_num)⟩

theorem getTotals_pct_le (s : Store) (date : String) : (getTotals s date).pct ≤ 100 := by
  simp only [getTotals]
  split_ifs <;> first | exact min_le_left _ _ | norm_num

/-- C15: for every log whose entries have non-negative kcal and every
non-negative stored target, the `pct` that `getTotals` returns lies in
[0, 100], and the colour class that `renderDaily` computes, which is
`getProgressBarColor(getTotals(date).pct)`, is never `bg-danger`. -/
theorem renderDaily_never_danger (s : Store) (date : String)
    (hk : ∀ (d : String) (r : DayRecord), s.log d = some r → ∀ e ∈ r.entries, 0 ≤ e.kcal)
    (ht : 0 ≤ (loadTarget s).kcal) :
    0 ≤ (getTotals s date).pct ∧ (getTotals s date).pct ≤ 100 ∧
    (renderDaily s date).colorClass = getProgressBarColor (getTotals s date).pct ∧
    (renderDaily s date).colorClass ≠ "bg-danger" := by
  have hle := getTotals_pct_le s date
  refine ⟨?_, hle, rfl, ?_⟩
  · have hc : 0 ≤ (getTotals s date).consumed := by
      simp only [getTotals, foldl_kcal, zero_add]
      apply List.sum_nonneg
      intro x hx
      rw [List.mem_map] at hx
      obtain ⟨e, he, rfl⟩ := hx
      cases hr : s.log date with
      | none => simp [hr] at he
      | some r =>
        simp only [hr] at he
        exact hk date r hr e he
    have hp : (getTotals s date).pct =
        if (getTotals s date).target ≠ 0 then
          min 100 (r0 ((getTotals s date).consumed / (getTotals s date).target * 100))
        else 0 := rfl
    have htg : 0 ≤ (getTotals s date).target := by
      simp only [getTotals]
      split_ifs
      · exact ht
      · exact le_refl 0
    rw [hp]
    split_ifs
    · exact le_min (by norm_num)
        (r0_nonneg (mul_nonneg (div_nonneg hc htg) (by norm_num)))
    · exact le_refl 0
  · intro hd
    have h100 : (100 : ℚ) < (((getTotals s date).pct : ℤ) : ℚ) := by
      have hd2 : getProgressBarColor (((getTotals s date).pct : ℤ) : ℚ) = "bg-danger" := hd
      unfold getProgressBarColor at hd2
      split_ifs at hd2 with h1 h2
      · exact absurd hd2 (by decide)
      · exact absurd hd2 (by decide)
      · exact not_le.mp h2
    have : (100 : ℤ) < (getTotals s date).pct := by exact_mod_cast h100
    omega

/-- An instance of C15: target 2000 and 2100 kcal consumed, so `over` is 100
and positive, and the colour class is `bg-warning`. -/
theorem renderDaily_never_danger_witness :
    (getTotals overStore "2024-05-01").over = 100 ∧
    (0 ≤ (getTotals overStore "2024-05-01").pct ∧
      (getTotals overStore "2024-05-01").pct ≤ 100 ∧
      (renderDaily overStore "2024-05-01").colorClass =
        getProgressBarColor (getTotals overStore "2024-05-01").pct ∧
      (renderDaily overStore "2024-05-01").colorClass ≠ "bg-danger") :=
  ⟨by norm_num [getTotals, overStore, Log.set, emptyLog, loadTarget],
   renderDaily_never_danger overStore "2024-05-01"
    (by
      intro d r hr e he
      simp only [overStore, Log.set, emptyLog] at hr
      split_ifs at hr
      cases hr
      simp only [List.mem_cons, List.mem_singleton, List.not_mem_nil, or_false] at he
      rcases he with rfl | rfl | rfl <;> norm_num)
    (by norm_num [loadTarget, overStore])⟩

end NutritionCalc
